/-
Verification of behavioural claims about the crossplane-contrib/provider-ansible
controller, against a shallow embedding of its Go source.

Embedded components:
  * pkg/shardutil            — FNV-1a shard predicate (hashString, isResourceForShardHelper)
  * internal/ansible         — job-event diagnosis (extractFailureReason, runnerEventMessage),
                               Runner.Run output routing / error handling / argument assembly,
                               WriteExtraVar, EnableCheckMode
  * internal/controller/ansibleRun — Observe/handleLastApplied/Delete decision logic,
                               acquireLease
Machine integers are modelled as Nat/Int with explicit truncation where the Go
code relies on wrap-around (the 32-bit FNV hash); Go maps are modelled as
association lists with map update/lookup semantics; fallible operations return
Except/Option.
-/
import Mathlib

namespace ProviderAnsible

/-! ## pkg/shardutil: FNV-1a hash and shard predicate

Go source (src/unnamed/part_000):
```
func hashString(s string) uint32 {
    h := fnv.New32a()
    h.Write([]byte(s))
    return h.Sum32()
}
```
`fnv.New32a` implements 32-bit FNV-1a: start from the offset basis 2166136261;
for each byte, XOR it in and multiply by the prime 16777619, modulo 2^32.
A Go string is a byte sequence; we model it as `List Nat` of byte values. -/

/-- 32-bit FNV-1a offset basis (Go `hash/fnv`). -/
def fnvOffsetBasis32 : Nat := 2166136261

/-- 32-bit FNV prime (Go `hash/fnv`). -/
def fnvPrime32 : Nat := 16777619

/-- One step of FNV-1a on a 32-bit accumulator: XOR the byte in, multiply by
the prime, truncate to 32 bits (Go `uint32` arithmetic wraps). -/
def fnv1aStep (h : Nat) (b : Nat) : Nat := ((h ^^^ b) * fnvPrime32) % 2 ^ 32

/-- `hashString` from pkg/shardutil: 32-bit FNV-1a over the bytes of the name. -/
def hashString (s : List Nat) : Nat := s.foldl fnv1aStep fnvOffsetBasis32

/-- `isResourceForShardHelper` from pkg/shardutil:
`hash := hashString(name); shard := hash % totalShards; return shard == targetShard`. -/
def isResourceForShardHelper (name : List Nat) (targetShard totalShards : Nat) : Bool :=
  hashString name % totalShards == targetShard

theorem fnv1aStep_lt (h b : Nat) : fnv1aStep h b < 2 ^ 32 := by
  unfold fnv1aStep
  exact Nat.mod_lt _ (by norm_num)

theorem hashString_lt (s : List Nat) : hashString s < 2 ^ 32 := by
  unfold hashString
  induction s using List.reverseRecOn with
  | nil => norm_num [fnvOffsetBasis32]
  | append_singleton xs x _ =>
      rw [List.foldl_append]
      exact fnv1aStep_lt _ _

/-!  ## internal/ansible: job events and failure diagnosis

Go source (src/unnamed/part_003 and src/internal/ansible/ansible.go).
`jobEvent.EventData` is an opaque `map[string]any` that `runnerEventMessage`
re-interprets through a JSON round trip (`reunmarshal`) into `runnerEventData`;
we model the opaque map together with the outcome of that re-interpretation:
`none` stands for an event-data map the round trip fails on. -/

/-- `runnerEventData` (src/unnamed/part_003): the structured view of a runner
event's `event_data` with fields play, task, host, res.msg, ignore_errors. -/
structure RunnerEventData where
  play : String
  task : String
  host : String
  resMsg : String
  ignoreErrors : Bool
deriving DecidableEq, Repr

/-- `jobEvent` (src/unnamed/part_003): uuid, event tag, and the opaque
`event_data`, represented by the result of re-interpreting it as
`runnerEventData` (`none` = the JSON round trip in `reunmarshal` fails). -/
structure JobEvent where
  uuid : String
  event : String
  eventData : Option RunnerEventData
deriving DecidableEq, Repr

/-- `eventTypeRunnerFailed` (src/unnamed/part_003). -/
def eventTypeRunnerFailed : String := "runner_on_failed"

/-- `eventTypeRunnerUnreachable` (src/unnamed/part_003). -/
def eventTypeRunnerUnreachable : String := "runner_on_unreachable"

/-- `runnerEventMessage` (ansible.go): re-interpret the event data; on failure
propagate the error; if `ignore_errors` is set contribute no text; otherwise
format `<reason> on play "<play>", task "<task>", host "<host>": <msg>`. -/
def runnerEventMessage (evt : JobEvent) (reason : String) : Except Unit String :=
  match evt.eventData with
  | none => Except.error ()
  | some d =>
      if d.ignoreErrors then Except.ok ""
      else Except.ok (reason ++ " on play \"" ++ d.play ++ "\", task \"" ++ d.task
        ++ "\", host \"" ++ d.host ++ "\": " ++ d.resMsg)

/-- The message-collecting loop of `extractFailureReason` (ansible.go): walk the
events, keep the non-empty messages of failed/unreachable events, propagate the
first re-interpretation error. -/
def failureMessages : List JobEvent → Except Unit (List String)
  | [] => Except.ok []
  | evt :: rest =>
      let tail := failureMessages rest
      if evt.event = eventTypeRunnerFailed then
        match runnerEventMessage evt "Failed", tail with
        | Except.error e, _ => Except.error e
        | _, Except.error e => Except.error e
        | Except.ok m, Except.ok ms => Except.ok (if m = "" then ms else m :: ms)
      else if evt.event = eventTypeRunnerUnreachable then
        match runnerEventMessage evt "Unreachable", tail with
        | Except.error e, _ => Except.error e
        | _, Except.error e => Except.error e
        | Except.ok m, Except.ok ms => Except.ok (if m = "" then ms else m :: ms)
      else tail

/-- `extractFailureReason` (ansible.go): collect the messages and join them
with `"; "` (`strings.Join(msgs, "; ")`). -/
def extractFailureReason (evts : List JobEvent) : Except Unit String :=
  (failureMessages evts).map (String.intercalate "; ")

/-! ## internal/ansible: Runner.Run — argument assembly, output routing, error handling

Go source: `playbookCmdFunc` (ansible.go:587-612) builds
`[run, <path>, -p, <playbookName>]` plus `["--cmdline", "\--check"]` when
`checkMode`; `Run` (ansible.go:786-837) appends
`--rotate-artifacts <limit>` and `--ident <uuid>`, wires the subprocess
stdout/stderr, waits, and on non-zero exit diagnoses the failure. -/

/-- Argument vector produced by `playbookCmdFunc` (ansible.go:587-599):
`cmdArgs := ["run", path]`, `cmdOptions := ["-p", playbookName]`, plus
`["--cmdline", "\--check"]` when `checkMode`. -/
def playbookCmdArgs (path playbookName : String) (checkMode : Bool) : List String :=
  ["run", path] ++ (["-p", playbookName] ++
    (if checkMode then ["--cmdline", "\\--check"] else []))

/-- `generateUUID` — in the Go source a package variable bound to `uuid.New`
from the google/uuid library (not part of this repository). Modelled from the
spec: a "freshly generated unique run identifier" per call; we index calls by a
counter and model only the guarantee the code relies on, that distinct calls
yield distinct identifiers (the generator is injective). -/
def generateUUID (n : Nat) : String := String.mk (List.replicate n 'u')

/-- The full argument vector of the `n`-th `Runner.Run` invocation
(ansible.go:792-796): the `cmdFunc` vector followed by
`--rotate-artifacts <artifactsHistoryLimit>` and `--ident <generateUUID n>`. -/
def runCmdArgs (path playbookName : String) (checkMode : Bool)
    (artifactsHistoryLimit : Int) (n : Nat) : List String :=
  playbookCmdArgs path playbookName checkMode ++
    ["--rotate-artifacts", toString artifactsHistoryLimit, "--ident", generateUUID n]

/-- `x` occurs immediately followed by `y` somewhere in the list. -/
def followedBy (x y : String) : List String → Bool
  | a :: b :: rest => (a == x && b == y) || followedBy x y (b :: rest)
  | _ => false

/-- Where a subprocess output stream is routed (ansible.go:786-810):
the parent's own stdout/stderr, the in-memory capture buffer, or left unset
(`nil` writer in Go, i.e. the stream is discarded). -/
inductive WriterDest
  | parentStdout
  | parentStderr
  | buffer
  | unset
deriving DecidableEq, Repr

/-- The environment `Runner.Run` executes in: the subprocess's exit outcome
(`none` = exit 0, `some msg` = the process error), what the subprocess writes
on stdout, and the content of the run's `job_events` directory (`none` = the
directory cannot be read, so `parseEvents` errors). -/
structure ProcWorld where
  exitErr : Option String
  procStdout : String
  jobEvents : Option (List JobEvent)
deriving Repr

/-- The observable outcome of `Runner.Run` (ansible.go:786-837): where stdout
and stderr were routed, and the returned value — `ok` carries the content of
the in-memory buffer the caller receives, `error` the returned error message. -/
structure RunOutcome where
  stdoutDest : WriterDest
  stderrDest : WriterDest
  result : Except String String
deriving Repr

/-- `Runner.Run` (ansible.go:786-837). With `checkMode` off, stdout/stderr go
to `os.Stdout`/`os.Stderr`; with `checkMode` on, stdout goes to the buffer and
`stderrWriter` is never assigned (nil). On exit 0 the buffer is returned (it
holds the subprocess stdout only in check mode). On non-zero exit the job
events are diagnosed: if reading or diagnosing fails the original process
error is returned; otherwise the process error is wrapped as
`fmt.Errorf("%w: %s", err, failureReason)`. -/
def runnerRun (checkMode : Bool) (w : ProcWorld) : RunOutcome :=
  let stdoutDest := if checkMode then WriterDest.buffer else WriterDest.parentStdout
  let stderrDest := if checkMode then WriterDest.unset else WriterDest.parentStderr
  let result :=
    match w.exitErr with
    | none => Except.ok (if checkMode then w.procStdout else "")
    | some procErr =>
        match w.jobEvents with
        | none => Except.error procErr
        | some evts =>
            match extractFailureReason evts with
            | Except.error _ => Except.error procErr
            | Except.ok failureReason => Except.error (procErr ++ ": " ++ failureReason)
  ⟨stdoutDest, stderrDest, result⟩

/-! ## internal/ansible: WriteExtraVar

Go source (ansible.go:966-991). The extravars file holds a JSON object,
unmarshalled into a Go `map[string]interface{}`; we model the object as an
association list with map update/lookup semantics. The value stored under a
key is left generic (`V`): `WriteExtraVar` never inspects values. The file
itself is `none` when it does not exist (`os.IsNotExist`), otherwise the
parsed object (an empty file parses to the empty object). -/

/-- Go map lookup `m[k]` on the association-list model. -/
def mapLookup {V : Type} (m : List (String × V)) (k : String) : Option V :=
  (m.find? (fun p => p.1 == k)).map Prod.snd

/-- Go map assignment `m[k] = v` on the association-list model: overwrite the
binding of `k` in place, or append a new binding. -/
def mapSet {V : Type} : List (String × V) → String → V → List (String × V)
  | [], k, v => [(k, v)]
  | p :: rest, k, v => if p.1 == k then (k, v) :: rest else p :: mapSet rest k v

/-- `Runner.WriteExtraVar` (ansible.go:966-991): read `env/extravars`
(a missing file is treated as empty), unmarshal when non-empty, set
`contentVars["ansible_provider_meta"] = extraVar`, and write the result back.
The returned object is the new file content. -/
def WriteExtraVar {V : Type} (file : Option (List (String × V))) (extraVar : V) :
    List (String × V) :=
  let contentVars := match file with
    | none => []
    | some m => m
  mapSet contentVars "ansible_provider_meta" extraVar

/-! ## internal/controller/ansibleRun: lease acquisition

Go source: `acquireLease` (src/unnamed/part_006:559-612). Timestamps are
modelled in seconds as integers; `time.Since(t) = now - t`, and the Go
comparison `time.Since(renewTime) < Duration(leaseDurationSeconds)*Second`
becomes `now - renewTime < leaseDurationSeconds`. The cluster state for one
lease name is `Option LeaseSpec` (`none` = the Lease object does not exist);
the kube Get/Create/Update calls themselves are modelled as succeeding. -/

/-- `leaseDurationSeconds` constant (src/unnamed/part_006:85). -/
def leaseDurationSecondsConst : Int := 30

/-- The fields of `coordinationv1.LeaseSpec` that `acquireLease` uses. -/
structure LeaseSpec where
  holderIdentity : Option String
  renewTime : Option Int
  leaseDurationSeconds : Int
deriving DecidableEq, Repr

/-- Result of one `acquireLease` attempt: whether it returned nil (`ok`), and
the lease record afterwards. -/
structure AcquireOutcome where
  ok : Bool
  lease : Option LeaseSpec
deriving DecidableEq, Repr

/-- `acquireLease` (src/unnamed/part_006:559-612). If no record exists, create
one held by `replicaID` renewed `now`. If a record exists whose holder is set
and differs from `replicaID`, and whose `renewTime` is set with
`now - renewTime < leaseDurationSeconds` (the record's own duration), fail and
leave the record unchanged. Otherwise overwrite holder, renew time and
duration and succeed. -/
def acquireLease (st : Option LeaseSpec) (replicaID : String) (now : Int) :
    AcquireOutcome :=
  match st with
  | none =>
      { ok := true
        lease := some { holderIdentity := some replicaID, renewTime := some now,
                        leaseDurationSeconds := leaseDurationSecondsConst } }
  | some l =>
      let heldByOtherLive : Bool :=
        match l.holderIdentity, l.renewTime with
        | some holder, some renew =>
            holder != replicaID && decide (now - renew < l.leaseDurationSeconds)
        | _, _ => false
      if heldByOtherLive then
        { ok := false, lease := some l }
      else
        { ok := true
          lease := some { holderIdentity := some replicaID, renewTime := some now,
                          leaseDurationSeconds := leaseDurationSecondsConst } }

/-! ## internal/controller/ansibleRun: Observe / handleLastApplied / Delete

Go source: src/unnamed/part_006 (`Observe` 359-422, `handleLastApplied`
471-515, `Delete` 441-456, `runAnsible` 517-532) over the runner interface of
internal/ansible (`EnableCheckMode` ansible.go:1008-1010, `WriteExtraVar`,
`Run`). The managed resource is modelled with the fields these functions
touch; `AnsibleRunParameters` follows apis/v1alpha1 (src/unnamed/part_011),
and `equality.Semantic.DeepEqual` on it is structural equality. -/

/-- `Var` (apis/v1alpha1): one key/value configuration variable. -/
structure Var where
  key : String
  value : String
deriving DecidableEq, Repr

/-- `AnsibleRunParameters` (apis/v1alpha1, src/unnamed/part_011:42-59). -/
structure AnsibleRunParameters where
  playbookInline : Option String
  roles : List String
  playbooks : List String
  vars : List Var
deriving DecidableEq, Repr

/-- `corev1.ConditionStatus`: the status of one condition. -/
inductive ConditionStatus
  | conditionTrue
  | conditionFalse
  | conditionUnknown
deriving DecidableEq, Repr

/-- The fields of the `AnsibleRun` managed resource the reconcile steps read
and write: object name, desired parameters, the `Synced` and `Ready`
condition statuses, the parsed `kubectl.kubernetes.io/last-applied-configuration`
annotation, and whether the object has a deletion timestamp
(`meta.WasDeleted`). -/
structure AnsibleRunCR where
  name : String
  forProvider : AnsibleRunParameters
  syncedStatus : ConditionStatus
  readyStatus : ConditionStatus
  lastAppliedAnnotation : Option AnsibleRunParameters
  deleted : Bool
deriving DecidableEq, Repr

/-- The value the controller stores under `ansible_provider_meta`: a nested
map `{<objectName>: {state: <marker>}}` (`map[string]interface{}` in Go). -/
structure ExtraVarValue where
  entries : List (String × List (String × String))
deriving DecidableEq, Repr

/-- The nested value `{<objectName>: {state: <marker>}}` passed to
`WriteExtraVar` by `Observe`/`handleLastApplied`/`Delete`
(`stateVar := {"state": marker}; nestedMap := {cr.GetName(): stateVar}`). -/
def stateMarkerValue (objectName marker : String) : ExtraVarValue :=
  ⟨[(objectName, [("state", marker)])]⟩

/-- The mutable state of one `ansible.Runner` as the controller sees it: the
run policy name, the `checkMode` flag (`EnableCheckMode` writes it, `Run`
reads it) and the content of the `env/extravars` file `WriteExtraVar`
maintains. -/
structure RunnerState where
  policyName : String
  checkMode : Bool
  extravars : Option (List (String × ExtraVarValue))
deriving DecidableEq, Repr

/-- A `Runner` as produced by `Parameters.Init` (ansible.go:688-751): the
`checkMode` field is never assigned, so it starts at Go's zero value `false`;
the `env/extravars` file has been created. -/
def initRunner (policyName : String) : RunnerState :=
  { policyName := policyName, checkMode := false, extravars := some [] }

/-- What one controller step did: the runner state afterwards, whether
`runner.Run` was invoked and with which `checkMode` (`some m` = invoked in
mode `m`, `none` = not invoked), the managed resource afterwards, and the
`ResourceExists`/`ResourceUpToDate` observation flags. -/
structure ReconcileStep where
  runner : RunnerState
  invokedRun : Option Bool
  cr : AnsibleRunCR
  resourceExists : Bool
  resourceUpToDate : Bool
deriving DecidableEq, Repr

/-- `WriteExtraVar` as invoked by the controller: merge
`{name: {state: marker}}` under `ansible_provider_meta` into the runner's
extravars file. -/
def runnerWriteStateVar (st : RunnerState) (objectName marker : String) : RunnerState :=
  { st with extravars := some (WriteExtraVar st.extravars (stateMarkerValue objectName marker)) }

/-- `runAnsible` (src/unnamed/part_006:517-532): invoke `runner.Run`; set the
`Available` condition (Ready=True) on success, `Unavailable` with the error
message (Ready=False) on failure. -/
def runAnsibleConditions (cr : AnsibleRunCR) (runSucceeds : Bool) : AnsibleRunCR :=
  if runSucceeds then { cr with readyStatus := ConditionStatus.conditionTrue }
  else { cr with readyStatus := ConditionStatus.conditionFalse }

/-- `handleLastApplied` (src/unnamed/part_006:471-515).
`isUpToDate := lastParameters != nil && DeepEqual(*lastParameters, desired.Spec.ForProvider)`;
`isLastSyncOK := desired.GetCondition(TypeSynced).Status == ConditionTrue`.
When both hold: set `Available` (Ready=True), update status, skip the run.
Otherwise: persist `desired.Spec.ForProvider` as the last-applied annotation,
write the `"present"` state marker, and invoke the runner via `runAnsible`
(with the runner's current `checkMode`). -/
def handleLastApplied (st : RunnerState) (lastParameters : Option AnsibleRunParameters)
    (desired : AnsibleRunCR) (runSucceeds : Bool) : ReconcileStep :=
  let isUpToDate := match lastParameters with
    | some p => p == desired.forProvider
    | none => false
  let isLastSyncOK := desired.syncedStatus == ConditionStatus.conditionTrue
  if isUpToDate && isLastSyncOK then
    { runner := st, invokedRun := none,
      cr := { desired with readyStatus := ConditionStatus.conditionTrue },
      resourceExists := true, resourceUpToDate := true }
  else
    let annotated := { desired with lastAppliedAnnotation := some desired.forProvider }
    let st' := runnerWriteStateVar st desired.name "present"
    { runner := st', invokedRun := some st'.checkMode,
      cr := runAnsibleConditions annotated runSucceeds,
      resourceExists := true, resourceUpToDate := true }

/-- `Observe` (src/unnamed/part_006:359-422).
Under `ObserveAndDelete` (or the empty default): a deleted object short
circuits with `ResourceExists: true`; otherwise the last-applied annotation is
read back and `handleLastApplied` decides. Under `CheckWhenObserve`: write the
`"present"` marker, `EnableCheckMode(true)`, and invoke the runner (in check
mode). Any other policy name falls through doing nothing. -/
def observe (st : RunnerState) (cr : AnsibleRunCR) (runSucceeds : Bool) : ReconcileStep :=
  if st.policyName == "ObserveAndDelete" || st.policyName == "" then
    if cr.deleted then
      { runner := st, invokedRun := none, cr := cr,
        resourceExists := true, resourceUpToDate := false }
    else
      handleLastApplied st cr.lastAppliedAnnotation cr runSucceeds
  else if st.policyName == "CheckWhenObserve" then
    let st' := { runnerWriteStateVar st cr.name "present" with checkMode := true }
    { runner := st', invokedRun := some st'.checkMode, cr := cr,
      resourceExists := true, resourceUpToDate := false }
  else
    { runner := st, invokedRun := none, cr := cr,
      resourceExists := false, resourceUpToDate := false }

/-- `Delete` (src/unnamed/part_006:441-456): set the `Deleting` condition
(Ready=False), write the `"absent"` state marker, and invoke `runner.Run` —
with the runner's current `checkMode`, which `Delete` never touches. -/
def deleteStep (st : RunnerState) (cr : AnsibleRunCR) : ReconcileStep :=
  let st' := runnerWriteStateVar st cr.name "absent"
  { runner := st', invokedRun := some st'.checkMode,
    cr := { cr with readyStatus := ConditionStatus.conditionFalse },
    resourceExists := false, resourceUpToDate := false }

/-- A concrete managed resource whose last-applied annotation equals its
desired parameters while its `Synced` condition is not `True`. -/
def crRetryInput : AnsibleRunCR :=
  { name := "obj", forProvider := { playbookInline := none, roles := [], playbooks := [], vars := [] },
    syncedStatus := ConditionStatus.conditionFalse,
    readyStatus := ConditionStatus.conditionUnknown,
    lastAppliedAnnotation := some { playbookInline := none, roles := [], playbooks := [], vars := [] },
    deleted := false }

/-- A concrete managed resource whose last-applied annotation equals its
desired parameters and whose `Synced` condition is `True`. -/
def crConvergedInput : AnsibleRunCR :=
  { name := "obj", forProvider := { playbookInline := none, roles := [], playbooks := [], vars := [] },
    syncedStatus := ConditionStatus.conditionTrue,
    readyStatus := ConditionStatus.conditionTrue,
    lastAppliedAnnotation := some { playbookInline := none, roles := [], playbooks := [], vars := [] },
    deleted := false }

/-- A concrete managed resource carrying a deletion timestamp, reconciled
under the `CheckWhenObserve` policy. -/
def crDeletedInput : AnsibleRunCR :=
  { name := "obj", forProvider := { playbookInline := none, roles := [], playbooks := [], vars := [] },
    syncedStatus := ConditionStatus.conditionTrue,
    readyStatus := ConditionStatus.conditionTrue,
    lastAppliedAnnotation := none,
    deleted := true }

/-! ## Theorems -/

theorem mapLookup_cons {V : Type} (p : String × V) (l : List (String × V)) (k : String) :
    mapLookup (p :: l) k = if p.1 == k then some p.2 else mapLookup l k := by
  cases hb : (p.1 == k) <;> simp [mapLookup, List.find?, hb]

theorem mapLookup_mapSet_self {V : Type} (m : List (String × V)) (k : String) (v : V) :
    mapLookup (mapSet m k v) k = some v := by
  induction m with
  | nil => simp [mapSet, mapLookup_cons, mapLookup]
  | cons p rest ih =>
      by_cases h : p.1 = k
      · simp [mapSet, h, mapLookup_cons]
      · simp [mapSet, h, mapLookup_cons, ih]

theorem mapLookup_mapSet_other {V : Type} (m : List (String × V)) (k k' : String) (v : V)
    (h : k' ≠ k) : mapLookup (mapSet m k v) k' = mapLookup m k' := by
  induction m with
  | nil => simp [mapSet, mapLookup_cons, mapLookup, Ne.symm h]
  | cons p rest ih =>
      by_cases hp : p.1 = k
      · simp [mapSet, hp, mapLookup_cons, Ne.symm h]
      · simp [mapSet, hp, mapLookup_cons, ih]

/-- C9: the shard hash is 32-bit FNV-1a, pinned by the test vectors
`hash("") = 2166136261` and `hash("a") = 0xe40c292c`, its value always fits in
32 bits, and `isResourceForShardHelper name shard count` equals
`hashString name % count == shard` — a pure function, hence identical results
for identical inputs on every call. -/
theorem claim_C9_fnv1a_shard_predicate :
    hashString [] = 2166136261 ∧
    hashString [97] = 0xe40c292c ∧
    (∀ s : List Nat, hashString s < 2 ^ 32) ∧
    (∀ (name : List Nat) (targetShard totalShards : Nat),
      isResourceForShardHelper name targetShard totalShards =
        (hashString name % totalShards == targetShard)) :=
  ⟨by decide, by decide, hashString_lt, fun _ _ _ => rfl⟩

theorem claim_C9_witness :
    isResourceForShardHelper [97] 0 3 = (hashString [97] % 3 == 0) ∧
    hashString [97] < 2 ^ 32 :=
  ⟨claim_C9_fnv1a_shard_predicate.2.2.2 [97] 0 3,
   claim_C9_fnv1a_shard_predicate.2.2.1 [97]⟩

/-- C8: `WriteExtraVar` maps `ansible_provider_meta` to the supplied value,
leaves every other pre-existing top-level key unchanged, and on a missing
extravars file produces the object containing only `ansible_provider_meta`. -/
theorem claim_C8_write_extra_var {V : Type} (m : List (String × V)) (v : V) (k : String)
    (hk : k ≠ "ansible_provider_meta") :
    mapLookup (WriteExtraVar (some m) v) "ansible_provider_meta" = some v ∧
    mapLookup (WriteExtraVar (some m) v) k = mapLookup m k ∧
    WriteExtraVar (none : Option (List (String × V))) v = [("ansible_provider_meta", v)] :=
  ⟨mapLookup_mapSet_self m _ v, mapLookup_mapSet_other m _ k v hk, rfl⟩

theorem claim_C8_witness :
    mapLookup (WriteExtraVar (some [("foo", (1 : Nat))]) 2) "ansible_provider_meta" = some 2 ∧
    mapLookup (WriteExtraVar (some [("foo", (1 : Nat))]) 2) "foo" =
      mapLookup [("foo", (1 : Nat))] "foo" ∧
    WriteExtraVar (none : Option (List (String × Nat))) 2 = [("ansible_provider_meta", 2)] :=
  claim_C8_write_extra_var [("foo", 1)] 2 "foo" (by decide)

/-- C3: `extractFailureReason` over one non-ignored "task failed" event with
play "test", task "file", host "testhost" and message "fake error" yields
exactly `Failed on play "test", task "file", host "testhost": fake error`;
the same event with `ignore_errors` set contributes nothing, so over only that
event the result is the empty string; events with neither failure tag
contribute nothing, so zero matching events yields the empty string without
error; and the collected messages are joined with `"; "`. -/
theorem claim_C3_diagnose :
    (∀ u : String,
      extractFailureReason [⟨u, eventTypeRunnerFailed,
          some ⟨"test", "file", "testhost", "fake error", false⟩⟩] =
        Except.ok "Failed on play \"test\", task \"file\", host \"testhost\": fake error") ∧
    (∀ u : String,
      extractFailureReason [⟨u, eventTypeRunnerFailed,
          some ⟨"test", "file", "testhost", "fake error", true⟩⟩] = Except.ok "") ∧
    (∀ evts : List JobEvent,
      (∀ e ∈ evts, e.event ≠ eventTypeRunnerFailed ∧ e.event ≠ eventTypeRunnerUnreachable) →
      extractFailureReason evts = Except.ok "") ∧
    (∀ (evts : List JobEvent) (msgs : List String),
      failureMessages evts = Except.ok msgs →
      extractFailureReason evts = Except.ok (String.intercalate "; " msgs)) := by
  refine ⟨fun u => rfl, fun u => rfl, ?_, ?_⟩
  · intro evts h
    have : failureMessages evts = Except.ok [] := by
      induction evts with
      | nil => rfl
      | cons e rest ih =>
          have he := h e (by simp)
          have hrest := ih (fun e' he' => h e' (by simp [he']))
          simp [failureMessages, he.1, he.2, hrest]
    simp [extractFailureReason, this]
    rfl
  · intro evts msgs h
    simp [extractFailureReason, h, Except.map]

theorem claim_C3_witness :
    extractFailureReason [⟨"uuid-1", eventTypeRunnerFailed,
        some ⟨"test", "file", "testhost", "fake error", false⟩⟩] =
      Except.ok "Failed on play \"test\", task \"file\", host \"testhost\": fake error" ∧
    extractFailureReason [⟨"uuid-1", eventTypeRunnerFailed,
        some ⟨"test", "file", "testhost", "fake error", true⟩⟩] = Except.ok "" ∧
    extractFailureReason [] = Except.ok "" ∧
    extractFailureReason [⟨"u", "playbook_on_start", none⟩] = Except.ok "" ∧
    extractFailureReason [] = Except.ok (String.intercalate "; " []) :=
  ⟨claim_C3_diagnose.1 "uuid-1",
   claim_C3_diagnose.2.1 "uuid-1",
   claim_C3_diagnose.2.2.1 [] (by simp),
   claim_C3_diagnose.2.2.1 [⟨"u", "playbook_on_start", none⟩] (by decide),
   claim_C3_diagnose.2.2.2 [] [] rfl⟩

/-- C4: when the subprocess exits non-zero, `Runner.Run` returns the original
process error unchanged if the diagnosis step fails (job-events directory
unreadable, or a matching event's event_data cannot be re-interpreted), and
returns the process error wrapped with the diagnosed reason when diagnosis
succeeds — never success and never the diagnosis error. -/
theorem claim_C4_run_error_handling (checkMode : Bool) (w : ProcWorld) (procErr : String)
    (hExit : w.exitErr = some procErr) :
    (w.jobEvents = none → (runnerRun checkMode w).result = Except.error procErr) ∧
    (∀ evts : List JobEvent, w.jobEvents = some evts →
      extractFailureReason evts = Except.error () →
      (runnerRun checkMode w).result = Except.error procErr) ∧
    (∀ (evts : List JobEvent) (reason : String), w.jobEvents = some evts →
      extractFailureReason evts = Except.ok reason →
      (runnerRun checkMode w).result = Except.error (procErr ++ ": " ++ reason)) := by
  refine ⟨fun hEvts => ?_, fun evts hEvts hDiag => ?_, fun evts reason hEvts hDiag => ?_⟩ <;>
    simp [runnerRun, hExit, hEvts]
  · simp [hDiag]
  · simp [hDiag]

theorem claim_C4_witness :
    (runnerRun false ⟨some "exit status 2", "", none⟩).result =
      Except.error "exit status 2" ∧
    (runnerRun false ⟨some "exit status 2", "",
        some [⟨"u", eventTypeRunnerFailed, none⟩]⟩).result =
      Except.error "exit status 2" ∧
    (runnerRun false ⟨some "exit status 2", "",
        some [⟨"u", eventTypeRunnerFailed, some ⟨"p", "t", "h", "m", false⟩⟩]⟩).result =
      Except.error ("exit status 2" ++ ": " ++ "Failed on play \"p\", task \"t\", host \"h\": m") :=
  ⟨(claim_C4_run_error_handling false _ "exit status 2" rfl).1 rfl,
   (claim_C4_run_error_handling false _ "exit status 2" rfl).2.1 _ rfl rfl,
   (claim_C4_run_error_handling false _ "exit status 2" rfl).2.2 _ _ rfl rfl⟩

/-- C6: with `checkMode` off, the subprocess stdout and stderr are routed to
the parent's stdout and stderr; with `checkMode` on, stdout is captured into
the in-memory buffer — not the parent's stdout — and on success `Run` returns
that buffer, holding the subprocess stdout. -/
theorem claim_C6_output_routing (w : ProcWorld) :
    ((runnerRun false w).stdoutDest = WriterDest.parentStdout ∧
     (runnerRun false w).stderrDest = WriterDest.parentStderr) ∧
    ((runnerRun true w).stdoutDest = WriterDest.buffer ∧
     (runnerRun true w).stdoutDest ≠ WriterDest.parentStdout ∧
     (w.exitErr = none → (runnerRun true w).result = Except.ok w.procStdout)) := by
  refine ⟨⟨rfl, rfl⟩, rfl, by simp [runnerRun], fun h => ?_⟩
  simp [runnerRun, h]

theorem claim_C6_witness :
    (runnerRun false ⟨none, "live output", none⟩).stdoutDest = WriterDest.parentStdout ∧
    (runnerRun false ⟨none, "live output", none⟩).stderrDest = WriterDest.parentStderr ∧
    (runnerRun true ⟨none, "checkrun output", none⟩).stdoutDest = WriterDest.buffer ∧
    (runnerRun true ⟨none, "checkrun output", none⟩).result =
      Except.ok "checkrun output" :=
  ⟨(claim_C6_output_routing ⟨none, "live output", none⟩).1.1,
   (claim_C6_output_routing ⟨none, "live output", none⟩).1.2,
   (claim_C6_output_routing ⟨none, "checkrun output", none⟩).2.1,
   (claim_C6_output_routing ⟨none, "checkrun output", none⟩).2.2.2 rfl⟩

/-- C10: with `checkMode` on, the subprocess stderr writer is left unset
(`stderrWriter` is never assigned, so `dc.Stderr` stays nil and the stream is
discarded): it is routed neither to the capture buffer nor to the parent's
stderr or stdout. -/
theorem claim_C10_check_mode_stderr_unset (w : ProcWorld) :
    (runnerRun true w).stderrDest = WriterDest.unset ∧
    (runnerRun true w).stderrDest ≠ WriterDest.buffer ∧
    (runnerRun true w).stderrDest ≠ WriterDest.parentStderr ∧
    (runnerRun true w).stderrDest ≠ WriterDest.parentStdout := by
  refine ⟨rfl, ?_, ?_, ?_⟩ <;> simp [runnerRun]

theorem claim_C10_witness :
    (runnerRun true ⟨none, "checkrun output", none⟩).stderrDest = WriterDest.unset :=
  (claim_C10_check_mode_stderr_unset ⟨none, "checkrun output", none⟩).1

/-- C1: under `ObserveAndDelete`, for a not-being-deleted object, `Observe`
invokes the runner iff it is NOT the case that the last-applied annotation is
present, structurally equal to the desired parameters, and the last `Synced`
condition is `True`; in the skip case the `Synced` condition status is left
untouched; and when last-applied equals desired but the sync condition is not
`True`, the run happens in apply mode (`checkMode = false`). -/
theorem claim_C1_observe_and_delete_policy (cr : AnsibleRunCR) (runSucceeds : Bool)
    (hNotDeleted : cr.deleted = false) :
    ((observe (initRunner "ObserveAndDelete") cr runSucceeds).invokedRun ≠ none ↔
      ¬(cr.lastAppliedAnnotation = some cr.forProvider ∧
        cr.syncedStatus = ConditionStatus.conditionTrue)) ∧
    (cr.lastAppliedAnnotation = some cr.forProvider ∧
        cr.syncedStatus = ConditionStatus.conditionTrue →
      (observe (initRunner "ObserveAndDelete") cr runSucceeds).cr.syncedStatus =
        cr.syncedStatus) ∧
    (cr.lastAppliedAnnotation = some cr.forProvider ∧
        cr.syncedStatus ≠ ConditionStatus.conditionTrue →
      (observe (initRunner "ObserveAndDelete") cr runSucceeds).invokedRun = some false) := by
  rcases hAnn : cr.lastAppliedAnnotation with _ | p
  · by_cases hSync : cr.syncedStatus = ConditionStatus.conditionTrue <;>
      simp [observe, initRunner, hNotDeleted, handleLastApplied, hAnn, hSync,
        runnerWriteStateVar, runAnsibleConditions]
  · by_cases hEq : p = cr.forProvider
    · by_cases hSync : cr.syncedStatus = ConditionStatus.conditionTrue <;>
        simp [observe, initRunner, hNotDeleted, handleLastApplied, hAnn, hEq, hSync,
          runnerWriteStateVar, runAnsibleConditions]
    · have hNe : some p ≠ some cr.forProvider := by simp [hEq]
      by_cases hSync : cr.syncedStatus = ConditionStatus.conditionTrue <;>
        simp [observe, initRunner, hNotDeleted, handleLastApplied, hAnn, hEq, hSync,
          runnerWriteStateVar, runAnsibleConditions]

theorem claim_C1_witness :
    (observe (initRunner "ObserveAndDelete") crRetryInput true).invokedRun = some false ∧
    (observe (initRunner "ObserveAndDelete") crConvergedInput true).cr.syncedStatus =
      crConvergedInput.syncedStatus ∧
    (observe (initRunner "ObserveAndDelete") crConvergedInput true).invokedRun = none :=
  ⟨(claim_C1_observe_and_delete_policy crRetryInput true rfl).2.2 ⟨rfl, by decide⟩,
   (claim_C1_observe_and_delete_policy crConvergedInput true rfl).2.1 ⟨rfl, rfl⟩,
   by
     by_contra hx
     exact ((claim_C1_observe_and_delete_policy crConvergedInput true rfl).1.mp hx) ⟨rfl, rfl⟩⟩

/-- C2: `acquireLease` on an existing lease record whose holder and renew time
are set: if the holder differs from the caller and `now - renewTime` is still
within the record's lease duration, the attempt fails and the record is
unchanged; if the holder is the caller, or the lease has expired
(`now - renewTime >= duration`), the attempt succeeds and the record is
overwritten with the caller's identity and the current time. -/
theorem claim_C2_lease_fencing (l : LeaseSpec) (holder replicaID : String) (rt now : Int)
    (hHolder : l.holderIdentity = some holder) (hRenew : l.renewTime = some rt) :
    (holder ≠ replicaID ∧ now - rt < l.leaseDurationSeconds →
      acquireLease (some l) replicaID now = ⟨false, some l⟩) ∧
    (holder = replicaID ∨ l.leaseDurationSeconds ≤ now - rt →
      acquireLease (some l) replicaID now =
        ⟨true, some ⟨some replicaID, some now, leaseDurationSecondsConst⟩⟩) := by
  constructor
  · rintro ⟨hne, hlive⟩
    simp [acquireLease, hHolder, hRenew, hne, hlive]
  · rintro (heq | hexp)
    · simp [acquireLease, hHolder, hRenew, heq]
    · simp [acquireLease, hHolder, hRenew, not_lt.mpr hexp]

theorem claim_C2_witness :
    acquireLease (some ⟨some "holder-a", some 0, 30⟩) "holder-b" 10 =
      ⟨false, some ⟨some "holder-a", some 0, 30⟩⟩ ∧
    acquireLease (some ⟨some "holder-b", some 0, 30⟩) "holder-b" 10 =
      ⟨true, some ⟨some "holder-b", some 10, 30⟩⟩ ∧
    acquireLease (some ⟨some "holder-a", some 0, 30⟩) "holder-b" 30 =
      ⟨true, some ⟨some "holder-b", some 30, 30⟩⟩ :=
  ⟨(claim_C2_lease_fencing _ "holder-a" "holder-b" 0 10 rfl rfl).1 ⟨by decide, by decide⟩,
   (claim_C2_lease_fencing _ "holder-b" "holder-b" 0 10 rfl rfl).2 (Or.inl rfl),
   (claim_C2_lease_fencing _ "holder-a" "holder-b" 0 30 rfl rfl).2 (Or.inr (by decide))⟩

/-- C5: the argument vector of every `Runner.Run` invocation contains the
dry-run flag pair `--cmdline \--check` iff `checkMode` is true, and in both
modes contains `--rotate-artifacts` directly followed by the configured
artifacts history limit and `--ident` directly followed by the identifier
generated for this call; the generator yields a new identifier on every call
(it is injective in the call counter). -/
theorem claim_C5_run_argument_vector (path playbookName : String) (checkMode : Bool)
    (artifactsHistoryLimit : Int) (n : Nat) :
    (followedBy "--cmdline" "\\--check"
        (runCmdArgs path playbookName checkMode artifactsHistoryLimit n) = checkMode) ∧
    followedBy "--rotate-artifacts" (toString artifactsHistoryLimit)
        (runCmdArgs path playbookName checkMode artifactsHistoryLimit n) = true ∧
    followedBy "--ident" (generateUUID n)
        (runCmdArgs path playbookName checkMode artifactsHistoryLimit n) = true ∧
    (∀ m k : Nat, m ≠ k → generateUUID m ≠ generateUUID k) := by
  refine ⟨?_, ?_, ?_, fun m k hmk hgen => ?_⟩
  · cases checkMode <;> simp [runCmdArgs, playbookCmdArgs, followedBy]
  · cases checkMode <;> simp [runCmdArgs, playbookCmdArgs, followedBy]
  · cases checkMode <;> simp [runCmdArgs, playbookCmdArgs, followedBy]
  · exact hmk (by simpa [generateUUID] using congrArg String.length hgen)

theorem claim_C5_witness :
    followedBy "--cmdline" "\\--check" (runCmdArgs "/ansibleDir/uid" "playbook.yml" true 10 0) =
      true ∧
    followedBy "--rotate-artifacts" (toString (10 : Int))
      (runCmdArgs "/ansibleDir/uid" "playbook.yml" true 10 0) = true ∧
    followedBy "--ident" (generateUUID 0)
      (runCmdArgs "/ansibleDir/uid" "playbook.yml" true 10 0) = true ∧
    generateUUID 0 ≠ generateUUID 1 :=
  ⟨(claim_C5_run_argument_vector "/ansibleDir/uid" "playbook.yml" true 10 0).1,
   (claim_C5_run_argument_vector "/ansibleDir/uid" "playbook.yml" true 10 0).2.1,
   (claim_C5_run_argument_vector "/ansibleDir/uid" "playbook.yml" true 10 0).2.2.1,
   (claim_C5_run_argument_vector "/ansibleDir/uid" "playbook.yml" true 10 0).2.2.2 0 1
     (by decide)⟩

/-- C7: evaluation at the failing input. Under `ObserveAndDelete` the deletion
step writes the `"absent"` marker and runs in apply mode, as claimed. But
under `CheckWhenObserve`, after the observation step of the same reconcile
pass has called `EnableCheckMode(true)`, `Delete` — which never resets
`checkMode` — invokes the runner with check mode still enabled, so the
`"absent"` run is a dry run, contradicting the claim that deletion runs in
apply mode for every run policy. -/
theorem claim_C7_delete_run_mode :
    (deleteStep (observe (initRunner "ObserveAndDelete") crDeletedInput true).runner
        crDeletedInput).invokedRun = some false ∧
    mapLookup ((deleteStep (observe (initRunner "ObserveAndDelete") crDeletedInput true).runner
        crDeletedInput).runner.extravars.getD []) "ansible_provider_meta" =
      some (stateMarkerValue "obj" "absent") ∧
    (observe (initRunner "CheckWhenObserve") crDeletedInput true).runner.checkMode = true ∧
    mapLookup ((deleteStep (observe (initRunner "CheckWhenObserve") crDeletedInput true).runner
        crDeletedInput).runner.extravars.getD []) "ansible_provider_meta" =
      some (stateMarkerValue "obj" "absent") ∧
    (deleteStep (observe (initRunner "CheckWhenObserve") crDeletedInput true).runner
        crDeletedInput).invokedRun = some true := by
  refine ⟨rfl, rfl, rfl, rfl, rfl⟩

end ProviderAnsible
